import Mathlib

/-! A shallow embedding of the plugin registration core of
`plugin-system-poc` (`src/core.js`, class `Core`) together with theorems
about its registration procedure.

`Core`'s observable state is the dependency graph, the exposure table
`this.plugins`, the `availablePlugins` name list and the `rawPlugins`
master list.  The lifecycle hooks other than `register` never touch this
state, so `registerPlugins` is modelled as a function returning the new
state, the ordered trace of the hook invocations it performs, and the
message of the error it throws, if any.  Exposed values are drawn from an
arbitrary type `Value`; the parameter `vi` (value indexing) gives the
JavaScript property-read semantics of exposed values, which is needed
only in the corner case where some value is exposed under the literal
key "plugins". -/

namespace PluginPoc

/-- Metadata every plugin supplies (`src/core.js`, plugin contract):
its name, the additional names it provides, and the names it depends
on. -/
structure PluginMetadata where
  name : String
  provides : List String
  depends : List String
  deriving DecidableEq

/-- Result of one property read through the override view object.
`val v` is a normal JavaScript read returning `v` (`none` models
`undefined`); `err` is an abrupt completion: a thrown `TypeError` or a
stack overflow from unbounded getter recursion. -/
inductive ViewRead (Value : Type) where
  | val : Option Value → ViewRead Value
  | err : ViewRead Value
  deriving DecidableEq

/-- A plugin instance as consumed by `Core`: a metadata object and a
`register` callback.  `register` receives the property-read function of
the override view built for this plugin and returns the value to
expose.  `init`, `afterInit` and `onPluginRegister` have no effect on
`Core`'s state, so the model records their invocations as trace events
instead of giving them bodies. -/
structure Plugin (Value : Type) where
  metadata : PluginMetadata
  register : (String → ViewRead Value) → Value

/-- Registration options (`src/core.js` lines 91-99): `name` is the
primary exposure key override, `overrides` the dependency remapping. -/
structure RegOptions where
  name : Option String := none
  overrides : List (String × String) := []

/-- A normalized batch entry.  `registerPlugins` normalizes each item of
its argument to a plugin/options pair (line 108); a bare plugin becomes
the pair with empty options. -/
abbrev PRecord (Value : Type) := Plugin Value × RegOptions

/-- `options.name || metadata.name` (line 170): JavaScript `||` takes
the fallback when `options.name` is absent (`undefined`) or is the empty
string, which is falsy. -/
def effectiveKey (opts : RegOptions) (m : PluginMetadata) : String :=
  match opts.name with
  | none => m.name
  | some s => if s = "" then m.name else s

/-- The mutable state of one `Core` instance (constructor, lines 23-64).
The exposure table `plugins` is a partial map: `some v` means the key is
bound by a getter returning `v`, `none` that the key is absent.
`dependencyGraph` maps each dependency name to the array stored under
it; an absent key reads as the empty array, matching the lazy
`if (!graph[d]) graph[d] = []` initialization (lines 206-208). -/
structure CoreState (Value : Type) where
  dependencyGraph : String → List String
  plugins : String → Option Value
  availablePlugins : List String
  rawPlugins : List (PRecord Value)

/-- A freshly constructed `Core`: every table empty. -/
def CoreState.empty (Value : Type) : CoreState Value :=
  ⟨fun _ => [], fun _ => none, [], []⟩

/-- Reading key `k` through the override view (lines 181-190).  The view
is `Object.create(basePlugins)` carrying one own getter per override
key; the getter body is `return this.plugins[overrideKey]`, and inside a
getter `this` is the view object itself, so `this.plugins` re-reads the
key "plugins" through the view: if "plugins" is itself an override key
the getters recurse without bound; if the exposure table has no binding
for "plugins" the read yields `undefined` and indexing `undefined`
throws a `TypeError`; otherwise the value bound to "plugins" is indexed
with `k` via `vi`.  A key that is not an override falls through the
prototype chain to the live exposure table. -/
def viewGet {Value : Type} (vi : Value → String → Option Value)
    (exposure : String → Option Value) (ov : List (String × String))
    (k : String) : ViewRead Value :=
  if (ov.lookup k).isSome then
    if (ov.lookup "plugins").isSome then .err
    else
      match exposure "plugins" with
      | none => .err
      | some v => .val (vi v k)
  else .val (exposure k)

/-- The sorted list of unmet dependencies of a batch (lines 120-155):
the union of the batch's `depends` entries, minus the names available
from `this.availablePlugins` and from the batch's own names and
`provides` entries, deduplicated by the `Set`s and sorted
lexicographically by `Array.sort`. -/
def missingDeps {Value : Type} (c : CoreState Value)
    (batch : List (PRecord Value)) : List String :=
  let avail := c.availablePlugins
    ++ batch.flatMap (fun r => r.1.metadata.name :: r.1.metadata.provides)
  let required := batch.flatMap (fun r => r.1.metadata.depends)
  ((required.filter (fun d => decide (d ∉ avail))).dedup).insertionSort
    (fun a b => a ≤ b)

/-- One `dependencyGraph` push (lines 202-211): ensure the entry for
`dep` exists and append the name `n` to it. -/
def pushEdge (g : String → List String) (dep n : String) :
    String → List String :=
  fun x => if x = dep then g x ++ [n] else g x

/-- Binding the plugin's primary key (lines 222-226):
`Object.defineProperty` installs the getter unconditionally, rebinding
the key even when it is already bound. -/
def expose {Value : Type} (ex : String → Option Value) (k : String)
    (v : Value) : String → Option Value :=
  fun x => if x = k then some v else ex x

/-- Binding one `provides` entry (lines 228-235): the getter is
installed only when the key is not already bound
(`if (!(provided in this.plugins))`); otherwise nothing happens. -/
def exposeAlias {Value : Type} (ex : String → Option Value) (k : String)
    (v : Value) : String → Option Value :=
  if (ex k).isSome then ex else expose ex k v

/-- One iteration of the Registering loop (lines 161-238): build the
override view over the live exposure table, call the plugin's
`register`, append the dependency-graph edges (one per occurrence of a
name in `depends`, always carrying `metadata.name`), bind the primary
key unconditionally, bind each provided name only if it is not already
bound, and push `metadata.name` and then the provided names onto
`availablePlugins`. -/
def registerOne {Value : Type} (vi : Value → String → Option Value)
    (c : CoreState Value) (r : PRecord Value) : CoreState Value :=
  let m := r.1.metadata
  let key := effectiveKey r.2 m
  let value := r.1.register (viewGet vi c.plugins r.2.overrides)
  { dependencyGraph :=
      m.depends.foldl (fun g d => pushEdge g d m.name) c.dependencyGraph
    plugins :=
      m.provides.foldl (fun ex p => exposeAlias ex p value)
        (expose c.plugins key value)
    availablePlugins := c.availablePlugins ++ m.name :: m.provides
    rawPlugins := c.rawPlugins }

/-- What the notification reduce (lines 262-263) actually passes to
`onPluginRegister`.  The reduce callback is the bare assignment
expression `data[name || metadata.name] = metadata`, and in JavaScript
an assignment expression evaluates to the assigned value, so the
accumulator after each step is that step's metadata object; the final
result is the last batch member's metadata, while the initial empty
object survives only an empty batch.  `mapObj` stands for a fresh
object holding the given string-keyed metadata entries; `metadataObj`
stands for a batch member's own metadata object. -/
inductive NotifyArg where
  | mapObj : List (String × PluginMetadata) → NotifyArg
  | metadataObj : PluginMetadata → NotifyArg
  deriving DecidableEq

/-- The value the notification reduce produces for a batch (see
`NotifyArg`). -/
def notifyArg {Value : Type} (batch : List (PRecord Value)) : NotifyArg :=
  match batch.getLast? with
  | none => .mapObj []
  | some r => .metadataObj r.1.metadata

/-- Modelled from the spec (section 4.4 step 5), for comparison with
`notifyArg`: "build a metadata snapshot keyed by each batch member's
effective exposure key". -/
def specNotifySnapshot {Value : Type} (batch : List (PRecord Value)) :
    List (String × PluginMetadata) :=
  batch.map (fun r => (effectiveKey r.2 r.1.metadata, r.1.metadata))

/-- One hook invocation performed by a `registerPlugins` call.  Batch
hooks are identified by the plugin's index in the normalized batch;
`notifyCall j arg` is the `onPluginRegister(arg)` call on the `j`-th
entry of the pre-existing `rawPlugins` list. -/
inductive Event where
  | registerCall : Nat → Event
  | initCall : Nat → Event
  | afterInitCall : Nat → Event
  | notifyCall : Nat → NotifyArg → Event
  deriving DecidableEq

/-- Whether an event is an `onPluginRegister` notification. -/
def Event.isNotify : Event → Bool
  | .notifyCall _ _ => true
  | _ => false

/-- `Core.registerPlugins` (lines 103-272) on a normalized batch.
Returns the state after the call, the ordered trace of the plugin hook
invocations the call performs, and the message of the thrown error, if
any.  Validation runs first over temporary structures; on failure the
method throws before any mutation or hook call, so the state comes back
untouched with an empty trace.  Otherwise the Registering loop folds
over the batch, the `init`, `afterInit` and notification loops run
(none of which mutates the state), and finally the batch is appended to
`rawPlugins`. -/
def registerPlugins {Value : Type} (vi : Value → String → Option Value)
    (c : CoreState Value) (batch : List (PRecord Value)) :
    CoreState Value × List Event × Option String :=
  let missing := missingDeps c batch
  if missing = [] then
    let c1 := batch.foldl (registerOne vi) c
    let n := batch.length
    let trace :=
      (List.range n).map Event.registerCall
        ++ (List.range n).map Event.initCall
        ++ (List.range n).map Event.afterInitCall
        ++ (List.range c.rawPlugins.length).map
            (fun j => Event.notifyCall j (notifyArg batch))
    ({ c1 with rawPlugins := c.rawPlugins ++ batch }, trace, none)
  else
    (c, [], some ("Unmet dependencies: " ++ String.intercalate ", " missing))

/-- A plugin whose `register` callback ignores its view and returns a
fixed value. -/
def constPlugin {Value : Type} (n : String) (provides depends : List String)
    (v : Value) : Plugin Value :=
  ⟨⟨n, provides, depends⟩, fun _ => v⟩

/-- The trivial value-indexing function: exposed values with no
readable properties. -/
def natVI : Nat → String → Option Nat := fun _ _ => none

/-- A dependency name is satisfiable for a batch when it is already in
`availablePlugins` or is the metadata name or a provided name of some
batch member (the validation set of lines 120-145). -/
def depSatisfiable {Value : Type} (c : CoreState Value)
    (batch : List (PRecord Value)) (d : String) : Prop :=
  d ∈ c.availablePlugins ∨
    ∃ r ∈ batch, d = r.1.metadata.name ∨ d ∈ r.1.metadata.provides

/-- Every `depends` entry of every batch member is satisfiable. -/
def batchValid {Value : Type} (c : CoreState Value)
    (batch : List (PRecord Value)) : Prop :=
  ∀ r ∈ batch, ∀ d ∈ r.1.metadata.depends, depSatisfiable c batch d

instance {Value : Type} (c : CoreState Value) (batch : List (PRecord Value))
    (d : String) : Decidable (depSatisfiable c batch d) := by
  unfold depSatisfiable; infer_instance

instance {Value : Type} (c : CoreState Value) (batch : List (PRecord Value)) :
    Decidable (batchValid c batch) := by
  unfold batchValid; infer_instance

/-! ### Concrete scenario inputs used by the theorems below -/

/-- C1 scenario: a plugin previously registered under the key
"customLogger" exposing the value 5. -/
def c1Logger : Plugin Nat := constPlugin "customLogger" [] [] 5

/-- The core after registering `c1Logger`. -/
def c1Core : CoreState Nat :=
  (registerPlugins natVI (CoreState.empty Nat) [(c1Logger, {})]).1

/-- C1 scenario: plugin X, whose `register` records what reading the
overridden key "logger" through its view produced: 99 for a throw, the
value read otherwise (98 for `undefined`). -/
def c1X : Plugin Nat :=
  ⟨⟨"x", [], []⟩, fun view => match view "logger" with
    | .err => 99
    | .val (some v) => v
    | .val none => 98⟩

/-- C1 scenario: X is registered with
`options.overrides = \x7b logger: "customLogger" \x7d`. -/
def c1Opts : RegOptions := ⟨none, [("logger", "customLogger")]⟩

/-- The core after additionally registering X with its override. -/
def c1After : CoreState Nat := (registerPlugins natVI c1Core [(c1X, c1Opts)]).1

/-- C2 witness scenario: one plugin depending on the never-registered
name "zzz". -/
def c2Batch : List (PRecord Nat) := [(constPlugin "a" [] ["zzz"] 0, {})]

/-- C3 counterexample scenario: a dependency-free plugin whose metadata
name is "a", registered under the custom primary name "x". -/
def c3P : Plugin Nat := constPlugin "a" [] [] 1

/-- C3 counterexample scenario: the custom-name options. -/
def c3Opts : RegOptions := ⟨some "x", []⟩

/-- The result of registering `c3P` under the custom name. -/
def c3Res : CoreState Nat × List Event × Option String :=
  registerPlugins natVI (CoreState.empty Nat) [(c3P, c3Opts)]

/-- C3 witness scenario: a plugin with a provides alias, registered
under a custom primary name. -/
def c3wBatch : List (PRecord Nat) := [(constPlugin "b" ["svc2"] [] 2, ⟨some "y", []⟩)]

/-- C4 scenario: plugin A depends on B; its `register` records whether
"B" was visible through its view at register time (1) or not (0). -/
def c4A : Plugin Nat :=
  ⟨⟨"A", [], ["B"]⟩, fun view => match view "B" with
    | .val (some _) => 1
    | _ => 0⟩

/-- C4 scenario: plugin B depends on A and exposes 7. -/
def c4B : Plugin Nat := constPlugin "B" [] ["A"] 7

/-- The result of registering the circular batch [A, B] together. -/
def c4Res : CoreState Nat × List Event × Option String :=
  registerPlugins natVI (CoreState.empty Nat) [(c4A, {}), (c4B, {})]

/-- C6 witness scenario: plugin Z, registered alone in batch 1. -/
def c6Z : Plugin Nat := constPlugin "z" [] [] 0

/-- C6 witness scenario: plugin W, registered alone in batch 2. -/
def c6W : Plugin Nat := constPlugin "w" [] [] 1

/-- The core after batch 1 = [Z]. -/
def c6c1 : CoreState Nat := (registerPlugins natVI (CoreState.empty Nat) [(c6Z, {})]).1

/-- Batch 2 = [W]. -/
def c6batch2 : List (PRecord Nat) := [(c6W, {})]

/-- C7 scenario: plugin registered in batch 1, to be notified. -/
def c7Z : Plugin Nat := constPlugin "zz" [] [] 0

/-- C7 scenario: the single member of batch 2, metadata name "w7". -/
def c7W : Plugin Nat := constPlugin "w7" [] [] 1

/-- The core after batch 1 = [c7Z]. -/
def c7c1 : CoreState Nat := (registerPlugins natVI (CoreState.empty Nat) [(c7Z, {})]).1

/-- Batch 2 of the C7 scenario. -/
def c7batch : List (PRecord Nat) := [(c7W, {})]

/-- The hook-invocation trace of registering batch 2 in the C7
scenario. -/
def c7trace : List Event := (registerPlugins natVI c7c1 c7batch).2.1

/-- C8 witness scenario: a single dependency-free plugin named "a". -/
def c8A : Plugin Nat := constPlugin "a" [] [] 4

/-- C8 witness scenario batch. -/
def c8batch : List (PRecord Nat) := [(c8A, {})]

/-- C9 scenario: a plugin exposing the name "d" that others can depend
on. -/
def c9D : Plugin Nat := constPlugin "d" [] [] 0

/-- The core after registering `c9D`. -/
def c9c1 : CoreState Nat := (registerPlugins natVI (CoreState.empty Nat) [(c9D, {})]).1

/-- C9 scenario: a plugin with metadata name "a" depending on "d". -/
def c9P : Plugin Nat := constPlugin "a" [] ["d"] 3

/-- C9 scenario: `c9P` is registered under the custom primary name
"x". -/
def c9Opts : RegOptions := ⟨some "x", []⟩

/-- The core after registering `c9P` under the custom name. -/
def c9c2 : CoreState Nat := (registerPlugins natVI c9c1 [(c9P, c9Opts)]).1

/-- C10 witness scenario: a dependency-free plugin with metadata name
"a10", to be registered under the custom primary name "k10". -/
def c10P : Plugin Nat := constPlugin "a10" [] [] 6

/-- C10 witness scenario: a plugin depending on the custom name
"k10". -/
def c10Q : Plugin Nat := constPlugin "q10" [] ["k10"] 0

/-! ### Helper lemmas about the registration procedure -/

theorem registerOne_availablePlugins {Value : Type}
    (vi : Value → String → Option Value) (c : CoreState Value)
    (r : PRecord Value) :
    (registerOne vi c r).availablePlugins =
      c.availablePlugins ++ r.1.metadata.name :: r.1.metadata.provides := rfl

theorem registerOne_rawPlugins {Value : Type}
    (vi : Value → String → Option Value) (c : CoreState Value)
    (r : PRecord Value) :
    (registerOne vi c r).rawPlugins = c.rawPlugins := rfl

theorem registerOne_dependencyGraph {Value : Type}
    (vi : Value → String → Option Value) (c : CoreState Value)
    (r : PRecord Value) :
    (registerOne vi c r).dependencyGraph =
      r.1.metadata.depends.foldl
        (fun g d => pushEdge g d r.1.metadata.name) c.dependencyGraph := rfl

theorem registerOne_plugins {Value : Type}
    (vi : Value → String → Option Value) (c : CoreState Value)
    (r : PRecord Value) :
    (registerOne vi c r).plugins =
      r.1.metadata.provides.foldl
        (fun ex p =>
          exposeAlias ex p (r.1.register (viewGet vi c.plugins r.2.overrides)))
        (expose c.plugins (effectiveKey r.2 r.1.metadata)
          (r.1.register (viewGet vi c.plugins r.2.overrides))) := rfl

theorem mem_availList_iff {Value : Type} {c : CoreState Value}
    {batch : List (PRecord Value)} {d : String} :
    d ∈ c.availablePlugins
        ++ batch.flatMap (fun r => r.1.metadata.name :: r.1.metadata.provides) ↔
      depSatisfiable c batch d := by
  simp [depSatisfiable, List.mem_append, List.mem_flatMap, List.mem_cons]

theorem mem_missingDeps {Value : Type} {c : CoreState Value}
    {batch : List (PRecord Value)} {d : String} :
    d ∈ missingDeps c batch ↔
      (∃ r ∈ batch, d ∈ r.1.metadata.depends) ∧ ¬ depSatisfiable c batch d := by
  unfold missingDeps
  rw [List.mem_insertionSort, List.mem_dedup, List.mem_filter]
  simp only [List.mem_flatMap, decide_eq_true_eq]
  rw [Iff.comm, and_congr_right_iff]
  intro _
  rw [not_iff_not]
  exact mem_availList_iff.symm

theorem missingDeps_eq_nil {Value : Type} {c : CoreState Value}
    {batch : List (PRecord Value)} :
    missingDeps c batch = [] ↔ batchValid c batch := by
  constructor
  · intro h r hr dep hdep
    by_contra hns
    have hmem : dep ∈ missingDeps c batch :=
      mem_missingDeps.mpr ⟨⟨r, hr, hdep⟩, hns⟩
    rw [h] at hmem
    exact absurd hmem (List.not_mem_nil dep)
  · intro h
    by_contra hne
    obtain ⟨d, hd⟩ := List.exists_mem_of_ne_nil _ hne
    obtain ⟨⟨r, hr, hdep⟩, hns⟩ := mem_missingDeps.mp hd
    exact hns (h r hr d hdep)

theorem expose_self {Value : Type} (ex : String → Option Value) (k : String)
    (v : Value) : expose ex k v k = some v := by
  simp [expose]

theorem expose_isSome {Value : Type} {ex : String → Option Value} {x : String}
    (k : String) (v : Value) (h : (ex x).isSome) :
    ((expose ex k v) x).isSome := by
  unfold expose
  split
  · rfl
  · exact h

theorem exposeAlias_preserve_val {Value : Type} {ex : String → Option Value}
    {x : String} {w : Value} (k : String) (v : Value) (h : ex x = some w) :
    exposeAlias ex k v x = some w := by
  unfold exposeAlias
  split
  · exact h
  · unfold expose
    split
    · rename_i hnotSome hxk
      rw [hxk] at h
      rw [h] at hnotSome
      simp at hnotSome
    · exact h

theorem exposeAlias_self_isSome {Value : Type} (ex : String → Option Value)
    (k : String) (v : Value) : ((exposeAlias ex k v) k).isSome := by
  unfold exposeAlias
  split
  · assumption
  · simp [expose]

theorem foldl_exposeAlias_val {Value : Type} (v : Value) (l : List String)
    {ex : String → Option Value} {x : String} {w : Value} (h : ex x = some w) :
    (l.foldl (fun e p => exposeAlias e p v) ex) x = some w := by
  induction l generalizing ex with
  | nil => exact h
  | cons p t ih => exact ih (exposeAlias_preserve_val p v h)

theorem foldl_exposeAlias_isSome {Value : Type} (v : Value) (l : List String)
    {ex : String → Option Value} {x : String} (h : ((ex x)).isSome) :
    ((l.foldl (fun e p => exposeAlias e p v) ex) x).isSome := by
  obtain ⟨w, hw⟩ := Option.isSome_iff_exists.mp h
  rw [foldl_exposeAlias_val v l hw]
  rfl

theorem foldl_exposeAlias_mem_isSome {Value : Type} (v : Value)
    {l : List String} {x : String} (hx : x ∈ l) (ex : String → Option Value) :
    ((l.foldl (fun e p => exposeAlias e p v) ex) x).isSome := by
  induction l generalizing ex with
  | nil => exact absurd hx (List.not_mem_nil x)
  | cons p t ih =>
    rcases List.mem_cons.mp hx with h | h
    · subst h
      exact foldl_exposeAlias_isSome v t (exposeAlias_self_isSome ex x v)
    · exact ih h _

theorem registerOne_plugins_isSome_mono {Value : Type}
    (vi : Value → String → Option Value) (c : CoreState Value)
    (r : PRecord Value) {x : String} (h : (c.plugins x).isSome) :
    ((registerOne vi c r).plugins x).isSome := by
  rw [registerOne_plugins]
  exact foldl_exposeAlias_isSome _ _ (expose_isSome _ _ h)

theorem registerOne_plugins_key_isSome {Value : Type}
    (vi : Value → String → Option Value) (c : CoreState Value)
    (r : PRecord Value) :
    ((registerOne vi c r).plugins (effectiveKey r.2 r.1.metadata)).isSome := by
  rw [registerOne_plugins]
  apply foldl_exposeAlias_isSome
  rw [expose_self]
  rfl

theorem registerOne_plugins_provides_isSome {Value : Type}
    (vi : Value → String → Option Value) (c : CoreState Value)
    (r : PRecord Value) {p : String} (hp : p ∈ r.1.metadata.provides) :
    ((registerOne vi c r).plugins p).isSome := by
  rw [registerOne_plugins]
  exact foldl_exposeAlias_mem_isSome _ hp _

theorem foldl_registerOne_isSome_mono {Value : Type}
    (vi : Value → String → Option Value) (batch : List (PRecord Value))
    {c : CoreState Value} {x : String} (h : (c.plugins x).isSome) :
    ((batch.foldl (registerOne vi) c).plugins x).isSome := by
  induction batch generalizing c with
  | nil => exact h
  | cons r t ih => exact ih (registerOne_plugins_isSome_mono vi c r h)

theorem foldl_registerOne_resolvable {Value : Type}
    (vi : Value → String → Option Value) {batch : List (PRecord Value)}
    {r : PRecord Value} (hr : r ∈ batch) (c : CoreState Value) :
    ((batch.foldl (registerOne vi) c).plugins
        (effectiveKey r.2 r.1.metadata)).isSome ∧
      ∀ p ∈ r.1.metadata.provides,
        ((batch.foldl (registerOne vi) c).plugins p).isSome := by
  induction batch generalizing c with
  | nil => exact absurd hr (List.not_mem_nil r)
  | cons a t ih =>
    rcases List.mem_cons.mp hr with h | h
    · subst h
      refine ⟨?_, fun p hp => ?_⟩
      · exact foldl_registerOne_isSome_mono vi t
          (registerOne_plugins_key_isSome vi c r)
      · exact foldl_registerOne_isSome_mono vi t
          (registerOne_plugins_provides_isSome vi c r hp)
    · exact ih h _

theorem foldl_registerOne_availablePlugins {Value : Type}
    (vi : Value → String → Option Value) (batch : List (PRecord Value))
    (c : CoreState Value) :
    (batch.foldl (registerOne vi) c).availablePlugins =
      c.availablePlugins
        ++ batch.flatMap (fun r => r.1.metadata.name :: r.1.metadata.provides) := by
  induction batch generalizing c with
  | nil => simp
  | cons r t ih =>
    rw [List.foldl_cons, ih, registerOne_availablePlugins,
      List.flatMap_cons, List.append_assoc]

theorem foldl_registerOne_rawPlugins {Value : Type}
    (vi : Value → String → Option Value) (batch : List (PRecord Value))
    (c : CoreState Value) :
    (batch.foldl (registerOne vi) c).rawPlugins = c.rawPlugins := by
  induction batch generalizing c with
  | nil => rfl
  | cons r t ih => rw [List.foldl_cons, ih, registerOne_rawPlugins]

theorem foldl_pushEdge (n : String) (deps : List String)
    (g : String → List String) (d : String) :
    (deps.foldl (fun g' dep => pushEdge g' dep n) g) d =
      g d ++ List.replicate (deps.count d) n := by
  induction deps generalizing g with
  | nil => simp
  | cons dep t ih =>
    rw [List.foldl_cons, ih, List.count_cons]
    by_cases h : dep = d
    · subst h
      simp [pushEdge, List.append_assoc]
      rw [← List.replicate_succ, List.replicate_succ']
    · have hbeq : (dep == d) = false := by simpa using h
      simp [pushEdge, h, hbeq]
      intro heq
      exact absurd heq.symm h

theorem foldl_registerOne_dependencyGraph {Value : Type}
    (vi : Value → String → Option Value) (batch : List (PRecord Value))
    (c : CoreState Value) (d : String) :
    (batch.foldl (registerOne vi) c).dependencyGraph d =
      c.dependencyGraph d
        ++ batch.flatMap
          (fun r => List.replicate (r.1.metadata.depends.count d)
            r.1.metadata.name) := by
  induction batch generalizing c with
  | nil => simp
  | cons r t ih =>
    rw [List.foldl_cons, ih, List.flatMap_cons, registerOne_dependencyGraph,
      foldl_pushEdge, List.append_assoc]

theorem registerPlugins_success {Value : Type}
    (vi : Value → String → Option Value) (c : CoreState Value)
    (batch : List (PRecord Value)) (h : missingDeps c batch = []) :
    registerPlugins vi c batch =
      ({ batch.foldl (registerOne vi) c with
          rawPlugins := c.rawPlugins ++ batch },
        (List.range batch.length).map Event.registerCall
          ++ (List.range batch.length).map Event.initCall
          ++ (List.range batch.length).map Event.afterInitCall
          ++ (List.range c.rawPlugins.length).map
              (fun j => Event.notifyCall j (notifyArg batch)), none) := by
  simp only [registerPlugins]
  rw [if_pos h]

theorem registerPlugins_failure {Value : Type}
    (vi : Value → String → Option Value) (c : CoreState Value)
    (batch : List (PRecord Value)) (h : missingDeps c batch ≠ []) :
    registerPlugins vi c batch =
      (c, [], some ("Unmet dependencies: "
        ++ String.intercalate ", " (missingDeps c batch))) := by
  simp only [registerPlugins]
  rw [if_neg h]

/-! ### Claim theorems -/

/-- C1 (code_bug evidence): with "customLogger" previously registered
and exposing 5, reading the overridden key "logger" through the view
built for plugin X throws — the getter's `this` is the view itself, so
`this.plugins` reads the unbound exposure key "plugins" and indexing
`undefined` raises a `TypeError` — instead of yielding the value
exposed under "customLogger".  X's `register`, which received exactly
this view from `registerPlugins`, observed the throw (it exposed 99).
A key absent from the overrides does fall through to the live exposure
table. -/
theorem c1_override_read_throws :
    c1Core.plugins "customLogger" = some 5 ∧
    viewGet natVI c1Core.plugins c1Opts.overrides "logger" = .err ∧
    ViewRead.err ≠ ViewRead.val (c1Core.plugins "customLogger") ∧
    c1After.plugins "x" = some 99 ∧
    viewGet natVI c1Core.plugins c1Opts.overrides "other" =
      .val (c1Core.plugins "other") := by decide

/-- C2: a batch with at least one unsatisfiable dependency makes
`registerPlugins` throw the unmet-dependency error whose message lists
exactly the missing names, each once, sorted lexicographically; no hook
is invoked (the trace is empty) and the state comes back untouched. -/
theorem c2_unmet_dependency_failure {Value : Type}
    (vi : Value → String → Option Value) (c : CoreState Value)
    (batch : List (PRecord Value))
    (h : ∃ r ∈ batch, ∃ d ∈ r.1.metadata.depends, ¬ depSatisfiable c batch d) :
    ∃ M : List String,
      registerPlugins vi c batch =
        (c, [], some ("Unmet dependencies: " ++ String.intercalate ", " M)) ∧
      M ≠ [] ∧ M.Sorted (fun a b => a ≤ b) ∧ M.Nodup ∧
      ∀ d, d ∈ M ↔
        (∃ r ∈ batch, d ∈ r.1.metadata.depends) ∧ ¬ depSatisfiable c batch d := by
  obtain ⟨r, hr, d, hd, hns⟩ := h
  have hmem : d ∈ missingDeps c batch := mem_missingDeps.mpr ⟨⟨r, hr, hd⟩, hns⟩
  have hne : missingDeps c batch ≠ [] := List.ne_nil_of_mem hmem
  refine ⟨missingDeps c batch, registerPlugins_failure vi c batch hne, hne,
    ?_, ?_, fun d' => mem_missingDeps⟩
  · haveI : IsTotal String (fun a b => a ≤ b) := ⟨fun a b => le_total a b⟩
    haveI : IsTrans String (fun a b => a ≤ b) := ⟨fun a b e h1 h2 => le_trans h1 h2⟩
    unfold missingDeps
    exact List.sorted_insertionSort _ _
  · unfold missingDeps
    exact ((List.perm_insertionSort _ _).nodup_iff).mpr (List.nodup_dedup _)

/-- C2 witness: the failure theorem applied to a batch depending on the
never-registered name "zzz", starting from an empty core. -/
theorem c2_witness :
    (∃ r ∈ c2Batch, ∃ d ∈ r.1.metadata.depends,
      ¬ depSatisfiable (CoreState.empty Nat) c2Batch d) ∧
    ∃ M : List String,
      registerPlugins natVI (CoreState.empty Nat) c2Batch =
        (CoreState.empty Nat, [],
          some ("Unmet dependencies: " ++ String.intercalate ", " M)) ∧
      M ≠ [] ∧ M.Sorted (fun a b => a ≤ b) ∧ M.Nodup ∧
      ∀ d, d ∈ M ↔
        (∃ r ∈ c2Batch, d ∈ r.1.metadata.depends) ∧
          ¬ depSatisfiable (CoreState.empty Nat) c2Batch d :=
  ⟨by decide,
    c2_unmet_dependency_failure natVI (CoreState.empty Nat) c2Batch (by decide)⟩

/-- C3 counterexample: registering the dependency-free plugin whose
metadata name is "a" under the custom primary name "x" succeeds, but
afterward the declared name "a" is not resolvable in the exposure table
(only "x" is), refuting the claim as stated. -/
theorem c3_counterexample :
    c3Res.2.2 = none ∧
    c3Res.1.plugins "a" = none ∧
    c3Res.1.plugins "x" = some 1 := by decide

/-- C3 (amended): for every batch whose every `depends` name is already
available or co-provided within the batch, `registerPlugins` returns
normally and afterward every batch member's effective exposure key
(`options.name` when given, else `metadata.name`) and every name in its
`provides` is resolvable in the exposure table. -/
theorem c3_amended_resolvable {Value : Type}
    (vi : Value → String → Option Value) (c : CoreState Value)
    (batch : List (PRecord Value)) (h : batchValid c batch) :
    ∃ c' trace, registerPlugins vi c batch = (c', trace, none) ∧
      ∀ r ∈ batch, (c'.plugins (effectiveKey r.2 r.1.metadata)).isSome ∧
        ∀ p ∈ r.1.metadata.provides, (c'.plugins p).isSome := by
  refine ⟨_, _, registerPlugins_success vi c batch (missingDeps_eq_nil.mpr h),
    fun r hr => ?_⟩
  exact foldl_registerOne_resolvable vi hr c

/-- C3 witness: the amended theorem applied to a batch of one plugin
with a provides alias, registered under a custom primary name. -/
theorem c3_witness :
    batchValid (CoreState.empty Nat) c3wBatch ∧
    ∃ c' trace,
      registerPlugins natVI (CoreState.empty Nat) c3wBatch = (c', trace, none) ∧
      ∀ r ∈ c3wBatch, (c'.plugins (effectiveKey r.2 r.1.metadata)).isSome ∧
        ∀ p ∈ r.1.metadata.provides, (c'.plugins p).isSome :=
  ⟨by decide,
    c3_amended_resolvable natVI (CoreState.empty Nat) c3wBatch (by decide)⟩

/-- C4: plugins A (`depends = ["B"]`) and B (`depends = ["A"]`)
registered together in one optionless batch succeed; "B" was not yet
exposed when A's `register` ran (A recorded 0), yet afterwards — in
particular during `afterInit`, which mutates nothing — each plugin's
view resolves the other plugin's exposed value: views read through to
the live exposure table instead of snapshotting it at register time. -/
theorem c4_circular_live_views :
    c4Res.2.2 = none ∧
    c4Res.1.plugins "A" = some 0 ∧
    viewGet natVI c4Res.1.plugins [] "B" = .val (some 7) ∧
    viewGet natVI c4Res.1.plugins [] "A" = .val (some 0) := by decide

/-- C5: binding a primary key rebinds unconditionally — after
registering two plugins whose primary key is the same `k`, `k` resolves
to the later value `v₂` — while binding a `provides` alias is a no-op
when the key is already bound — after registering two plugins that both
provide "svc" (unbound beforehand), "svc" resolves to the earlier value
`v₁`. -/
theorem c5_expose_asymmetry {Value : Type}
    (vi : Value → String → Option Value) (c : CoreState Value)
    (v₁ v₂ : Value) (k : String) (hsvc : c.plugins "svc" = none) :
    (registerPlugins vi c
        [(constPlugin k [] [] v₁, {}), (constPlugin k [] [] v₂, {})]).1.plugins k
      = some v₂ ∧
    (registerPlugins vi c
        [(constPlugin "p1" ["svc"] [] v₁, {}),
          (constPlugin "p2" ["svc"] [] v₂, {})]).1.plugins "svc"
      = some v₁ := by
  constructor
  · rw [registerPlugins_success vi c
      [(constPlugin k [] [] v₁, {}), (constPlugin k [] [] v₂, {})] rfl]
    simp [registerOne, constPlugin, effectiveKey, expose]
  · rw [registerPlugins_success vi c
      [(constPlugin "p1" ["svc"] [] v₁, {}),
        (constPlugin "p2" ["svc"] [] v₂, {})] rfl]
    simp [registerOne, constPlugin, effectiveKey, expose, exposeAlias, hsvc]

/-- C5 witness: the asymmetry theorem at the empty core with values 1
and 2 and key "kk". -/
theorem c5_witness :
    (CoreState.empty Nat).plugins "svc" = none ∧
    ((registerPlugins natVI (CoreState.empty Nat)
        [(constPlugin "kk" [] [] 1, {}), (constPlugin "kk" [] [] 2, {})]).1.plugins
        "kk" = some 2 ∧
      (registerPlugins natVI (CoreState.empty Nat)
        [(constPlugin "p1" ["svc"] [] 1, {}),
          (constPlugin "p2" ["svc"] [] 2, {})]).1.plugins "svc" = some 1) :=
  ⟨rfl, c5_expose_asymmetry natVI (CoreState.empty Nat) 1 2 "kk" rfl⟩

/-- Notification events vanish from a filtered trace segment whose
events are not notifications. -/
theorem filter_isNotify_map_false (f : Nat → Event)
    (hf : ∀ x, Event.isNotify (f x) = false) (l : List Nat) :
    (l.map f).filter Event.isNotify = [] := by
  induction l with
  | nil => rfl
  | cons a t ih => simp [List.filter_cons, hf, ih]

/-- A trace segment made only of notification events survives the
notification filter unchanged. -/
theorem filter_isNotify_map_true (f : Nat → Event)
    (hf : ∀ x, Event.isNotify (f x) = true) (l : List Nat) :
    (l.map f).filter Event.isNotify = l.map f := by
  induction l with
  | nil => rfl
  | cons a t ih => simp [List.filter_cons, hf, ih]

/-- C6: a successfully registered batch notifies exactly the previously
registered plugins: `onPluginRegister` fires once per pre-existing
`rawPlugins` entry, in their original registration order, with every
notified index strictly below the old length — so no member of the new
batch is notified of its own batch — and only afterwards is the batch
appended to `rawPlugins`. -/
theorem c6_notification_scope {Value : Type}
    (vi : Value → String → Option Value) (c : CoreState Value)
    (batch : List (PRecord Value)) (h : batchValid c batch) :
    ∃ c' trace, registerPlugins vi c batch = (c', trace, none) ∧
      trace.filter Event.isNotify =
        (List.range c.rawPlugins.length).map
          (fun j => Event.notifyCall j (notifyArg batch)) ∧
      c'.rawPlugins = c.rawPlugins ++ batch := by
  refine ⟨_, _, registerPlugins_success vi c batch (missingDeps_eq_nil.mpr h),
    ?_, rfl⟩
  simp only [List.filter_append]
  rw [filter_isNotify_map_false Event.registerCall (fun x => rfl),
    filter_isNotify_map_false Event.initCall (fun x => rfl),
    filter_isNotify_map_false Event.afterInitCall (fun x => rfl),
    filter_isNotify_map_true (fun j => Event.notifyCall j (notifyArg batch))
      (fun x => rfl)]
  simp

/-- C6 witness: plugin Z registered alone in batch 1 is notified exactly
once when batch 2 = [W] is registered, and W is not notified. -/
theorem c6_witness :
    batchValid c6c1 c6batch2 ∧
    ∃ c' trace, registerPlugins natVI c6c1 c6batch2 = (c', trace, none) ∧
      trace.filter Event.isNotify =
        (List.range c6c1.rawPlugins.length).map
          (fun j => Event.notifyCall j (notifyArg c6batch2)) ∧
      c'.rawPlugins = c6c1.rawPlugins ++ c6batch2 :=
  ⟨by decide, c6_notification_scope natVI c6c1 c6batch2 (by decide)⟩

/-- C7 (code_bug evidence): because the notification reduce returns the
value of its assignment expression instead of the accumulator, the
prior plugin is notified with the new batch member's metadata object
itself, not a mapping from the member's effective exposure key "w7" to
its metadata as the spec describes. -/
theorem c7_notify_arg_is_metadata :
    c7trace.filter Event.isNotify =
      [Event.notifyCall 0 (NotifyArg.metadataObj ⟨"w7", [], []⟩)] ∧
    notifyArg c7batch = NotifyArg.metadataObj ⟨"w7", [], []⟩ ∧
    NotifyArg.metadataObj ⟨"w7", [], []⟩ ≠
      NotifyArg.mapObj (specNotifySnapshot c7batch) ∧
    specNotifySnapshot c7batch = [("w7", ⟨"w7", [], []⟩)] := by decide

/-- C8: for a batch whose dependencies validate, the phases run in
strict order — every `register` call, then every `init`, then every
`afterInit`, then every notification, each phase covering the whole
batch in input order before the next begins — and for a single-member
batch the member's effective key afterwards resolves to exactly the
value its `register` returned. -/
theorem c8_phase_order {Value : Type}
    (vi : Value → String → Option Value) (c : CoreState Value)
    (batch : List (PRecord Value)) (h : batchValid c batch) :
    ∃ c', registerPlugins vi c batch =
      (c', (List.range batch.length).map Event.registerCall
        ++ (List.range batch.length).map Event.initCall
        ++ (List.range batch.length).map Event.afterInitCall
        ++ (List.range c.rawPlugins.length).map
            (fun j => Event.notifyCall j (notifyArg batch)), none) ∧
      ∀ r : PRecord Value, batch = [r] →
        c'.plugins (effectiveKey r.2 r.1.metadata) =
          some (r.1.register (viewGet vi c.plugins r.2.overrides)) := by
  refine ⟨_, registerPlugins_success vi c batch (missingDeps_eq_nil.mpr h),
    fun r hb => ?_⟩
  subst hb
  show (registerOne vi c r).plugins (effectiveKey r.2 r.1.metadata) = _
  rw [registerOne_plugins]
  exact foldl_exposeAlias_val _ _ (expose_self _ _ _)

/-- C8 witness: the phase-order theorem applied to the single
dependency-free plugin A with metadata name "a" on an empty core. -/
theorem c8_witness :
    batchValid (CoreState.empty Nat) c8batch ∧
    ∃ c', registerPlugins natVI (CoreState.empty Nat) c8batch =
      (c', (List.range c8batch.length).map Event.registerCall
        ++ (List.range c8batch.length).map Event.initCall
        ++ (List.range c8batch.length).map Event.afterInitCall
        ++ (List.range (CoreState.empty Nat).rawPlugins.length).map
            (fun j => Event.notifyCall j (notifyArg c8batch)), none) ∧
      ∀ r : PRecord Nat, c8batch = [r] →
        c'.plugins (effectiveKey r.2 r.1.metadata) =
          some (r.1.register
            (viewGet natVI (CoreState.empty Nat).plugins r.2.overrides)) :=
  ⟨by decide, c8_phase_order natVI (CoreState.empty Nat) c8batch (by decide)⟩

/-- C9 counterexample: after a provider of "d" is registered, the
plugin with metadata name "a" and `depends = ["d"]`, registered under
the custom primary name "x" (its effective exposure key), appends "a" —
not "x" — to the dependency graph entry for "d", refuting the claim as
stated. -/
theorem c9_counterexample :
    c9c2.dependencyGraph "d" = ["a"] ∧
    effectiveKey c9Opts c9P.metadata = "x" ∧
    (["a"] : List String) ≠ ["x"] := by decide

/-- C9 (amended): during the Registering phase each plugin appends its
`metadata.name` — not its effective exposure key — to the dependency
graph entry of each name in its `depends`, one copy per occurrence, and
registration modifies the dependency graph in no other way. -/
theorem c9_amended_graph {Value : Type}
    (vi : Value → String → Option Value) (c : CoreState Value)
    (batch : List (PRecord Value)) (h : batchValid c batch) (d : String) :
    (registerPlugins vi c batch).1.dependencyGraph d =
      c.dependencyGraph d
        ++ batch.flatMap
          (fun r => List.replicate (r.1.metadata.depends.count d)
            r.1.metadata.name) := by
  rw [registerPlugins_success vi c batch (missingDeps_eq_nil.mpr h)]
  exact foldl_registerOne_dependencyGraph vi batch c d

/-- C9 witness: the amended theorem applied to the concrete custom-name
scenario, read at the entry "d". -/
theorem c9_witness :
    batchValid c9c1 [(c9P, c9Opts)] ∧
    (registerPlugins natVI c9c1 [(c9P, c9Opts)]).1.dependencyGraph "d" =
      c9c1.dependencyGraph "d"
        ++ [(c9P, c9Opts)].flatMap
          (fun r => List.replicate (r.1.metadata.depends.count "d")
            r.1.metadata.name) :=
  ⟨by decide, c9_amended_graph natVI c9c1 [(c9P, c9Opts)] (by decide) "d"⟩

/-- The unmet-dependency list of a batch of one optionless plugin whose
single dependency `k` is unavailable is exactly `[k]`. -/
theorem missingDeps_single {Value : Type} (c : CoreState Value)
    (q : Plugin Value) (k : String) (hq : q.metadata.depends = [k])
    (hnot : k ∉ c.availablePlugins) (hqn : q.metadata.name ≠ k)
    (hqp : k ∉ q.metadata.provides) :
    missingDeps c [(q, ({} : RegOptions))] = [k] := by
  have hnot2 : k ∉ c.availablePlugins
      ++ (q.metadata.name :: q.metadata.provides) := by
    intro hmem
    rcases List.mem_append.mp hmem with h1 | h2
    · exact hnot h1
    · rcases List.mem_cons.mp h2 with h3 | h4
      · exact hqn h3.symm
      · exact hqp h4
  unfold missingDeps
  simp only [List.flatMap_cons, List.flatMap_nil, List.append_nil, hq]
  rw [List.filter_cons, if_pos (by simpa using hnot2), List.filter_nil]
  rw [List.dedup_cons_of_not_mem (by simp), List.dedup_nil]
  simp [List.insertionSort, List.orderedInsert]

/-- C10: registering a plugin under `options.name = k` (with `k`
nonempty, different from its metadata name, in nobody's `provides` and
not previously available) succeeds and makes `k` resolvable in the
exposure table, but appends `metadata.name` — not `k` — to
`availablePlugins`; a later batch depending on `k` (without co-providing
it) therefore fails validation with `k` reported missing, even though
the exposure lookup of `k` yields a value, and the state stays as it
was after the first call. -/
theorem c10_custom_name_gap {Value : Type}
    (vi : Value → String → Option Value) (c : CoreState Value)
    (p q : Plugin Value) (k : String)
    (hk : k ≠ "") (hkn : k ≠ p.metadata.name) (hka : k ∉ c.availablePlugins)
    (hkp : k ∉ p.metadata.provides)
    (hdep : ∀ d ∈ p.metadata.depends, d ∈ c.availablePlugins ∨
      d = p.metadata.name ∨ d ∈ p.metadata.provides)
    (hq : q.metadata.depends = [k]) (hqn : q.metadata.name ≠ k)
    (hqp : k ∉ q.metadata.provides) :
    ∃ c' trace,
      registerPlugins vi c [(p, ⟨some k, []⟩)] = (c', trace, none) ∧
      (c'.plugins k).isSome ∧
      c'.availablePlugins =
        c.availablePlugins ++ p.metadata.name :: p.metadata.provides ∧
      k ∉ c'.availablePlugins ∧
      registerPlugins vi c' [(q, {})] =
        (c', [], some ("Unmet dependencies: " ++ k)) := by
  have hvalid : batchValid c [(p, (⟨some k, []⟩ : RegOptions))] := by
    intro r hr d hd
    rw [List.mem_singleton] at hr
    subst hr
    rcases hdep d hd with h1 | h2 | h3
    · exact Or.inl h1
    · exact Or.inr ⟨(p, ⟨some k, []⟩), List.mem_singleton.mpr rfl, Or.inl h2⟩
    · exact Or.inr ⟨(p, ⟨some k, []⟩), List.mem_singleton.mpr rfl, Or.inr h3⟩
  have hkey : effectiveKey (⟨some k, []⟩ : RegOptions) p.metadata = k := by
    simp [effectiveKey, hk]
  refine ⟨_, _,
    registerPlugins_success vi c [(p, ⟨some k, []⟩)]
      (missingDeps_eq_nil.mpr hvalid), ?_, ?_, ?_, ?_⟩
  · have h1 := registerOne_plugins_key_isSome vi c (p, ⟨some k, []⟩)
    rw [hkey] at h1
    exact h1
  · exact registerOne_availablePlugins vi c (p, ⟨some k, []⟩)
  · show k ∉ c.availablePlugins ++ p.metadata.name :: p.metadata.provides
    intro hmem
    rcases List.mem_append.mp hmem with h1 | h2
    · exact hka h1
    · rcases List.mem_cons.mp h2 with h3 | h4
      · exact hkn h3
      · exact hkp h4
  · have hnot : k ∉ (registerOne vi c (p, (⟨some k, []⟩ : RegOptions))).availablePlugins := by
      rw [registerOne_availablePlugins]
      intro hmem
      rcases List.mem_append.mp hmem with h1 | h2
      · exact hka h1
      · rcases List.mem_cons.mp h2 with h3 | h4
        · exact hkn h3
        · exact hkp h4
    have hm : missingDeps
        ({ List.foldl (registerOne vi) c [(p, (⟨some k, []⟩ : RegOptions))] with
            rawPlugins := c.rawPlugins ++ [(p, ⟨some k, []⟩)] } : CoreState Value)
        [(q, ({} : RegOptions))] = [k] :=
      missingDeps_single _ q k hq hnot hqn hqp
    have hne2 : missingDeps
        ({ List.foldl (registerOne vi) c [(p, (⟨some k, []⟩ : RegOptions))] with
            rawPlugins := c.rawPlugins ++ [(p, ⟨some k, []⟩)] } : CoreState Value)
        [(q, ({} : RegOptions))] ≠ [] := by
      rw [hm]
      exact List.cons_ne_nil k []
    rw [registerPlugins_failure vi
      ({ List.foldl (registerOne vi) c [(p, (⟨some k, []⟩ : RegOptions))] with
          rawPlugins := c.rawPlugins ++ [(p, ⟨some k, []⟩)] } : CoreState Value)
      [(q, ({} : RegOptions))] hne2, hm]
    rfl

/-- C10 witness: the custom-name gap theorem applied to the concrete
plugin "a10" registered under the custom name "k10" on an empty core,
followed by a plugin depending on "k10". -/
theorem c10_witness :
    (("k10" : String) ≠ "" ∧ ("k10" : String) ≠ c10P.metadata.name ∧
      "k10" ∉ (CoreState.empty Nat).availablePlugins ∧
      "k10" ∉ c10P.metadata.provides ∧
      (∀ d ∈ c10P.metadata.depends,
        d ∈ (CoreState.empty Nat).availablePlugins ∨
          d = c10P.metadata.name ∨ d ∈ c10P.metadata.provides) ∧
      c10Q.metadata.depends = ["k10"] ∧ c10Q.metadata.name ≠ "k10" ∧
      "k10" ∉ c10Q.metadata.provides) ∧
    ∃ c' trace,
      registerPlugins natVI (CoreState.empty Nat) [(c10P, ⟨some "k10", []⟩)] =
        (c', trace, none) ∧
      (c'.plugins "k10").isSome ∧
      c'.availablePlugins =
        (CoreState.empty Nat).availablePlugins
          ++ c10P.metadata.name :: c10P.metadata.provides ∧
      "k10" ∉ c'.availablePlugins ∧
      registerPlugins natVI c' [(c10Q, {})] =
        (c', [], some ("Unmet dependencies: " ++ "k10")) :=
  ⟨by decide,
    c10_custom_name_gap natVI (CoreState.empty Nat) c10P c10Q "k10"
      (by decide) (by decide) (by decide) (by decide) (by decide)
      (by decide) (by decide) (by decide)⟩

end PluginPoc
